import Mathlib

/-!
Shallow embedding of `src/stl.py` (class `STL`), a binary STL mesh reader.

Modelling conventions:
* Python 32-bit floats are modelled as rationals (`ℚ`); the geometric
  accumulations (extents, centroid, signed volume) are stated over `ℚ`.
* The byte source (`self._file`) is a `List Nat` of bytes together with an
  explicit cursor position; `file.read(n)` followed by `struct.unpack`
  succeeds exactly when `n` bytes remain (a short read makes
  `struct.unpack` raise `struct.error`), modelled by `unpack` returning
  `Option`.
* Decoding of a 12-byte `"<3f"` field into three floats is abstracted by a
  parameter `dec : List Nat → Vec3`: no claim depends on the IEEE-754 bit
  layout, only on which bytes are consumed and on the arithmetic done with
  the decoded values.
* The mutable object state of class `STL` is the record `STLState`,
  threaded explicitly.  A raised Python exception that escapes
  `_calculateDimensions` is the `PassResult.exn` constructor, carrying the
  state as mutated up to the raise (Python mutates in place, so partial
  updates survive the exception).
-/

/-- A Python 3-tuple of floats `(x, y, z)`, used for normals, vertices and
the centroid. -/
structure Vec3 where
  x : ℚ
  y : ℚ
  z : ℚ
deriving DecidableEq, Repr

/-- The zero vector `(0, 0, 0)`, the initial value of `_centroid`. -/
def vzero : Vec3 := ⟨0, 0, 0⟩

/-- The mutable state of an `STL` instance: the accumulated sequences and
scalars of `src/stl.py` lines 12-33 (class attribute defaults). -/
structure STLState where
  errorCode : Int
  failed : Bool
  normals : List Vec3
  vertices : List Vec3
  triangles : List (Vec3 × Vec3 × Vec3)
  bytecount : List Int
  centroid : Vec3
  numberOfTriangles : Int
  volume : ℚ
  width : ℚ
  height : ℚ
  depth : ℚ
  xPos : ℚ
  xNeg : ℚ
  yPos : ℚ
  yNeg : ℚ
  zPos : ℚ
  zNeg : ℚ
deriving DecidableEq, Repr

/-- The class attribute defaults of `STL` (`src/stl.py` lines 12-33):
`_errorCode = 1`, `_failed = False`, empty sequences, zero scalars. -/
def initState : STLState :=
  { errorCode := 1, failed := false, normals := [], vertices := [],
    triangles := [], bytecount := [], centroid := vzero,
    numberOfTriangles := 0, volume := 0, width := 0, height := 0,
    depth := 0, xPos := 0, xNeg := 0, yPos := 0, yNeg := 0,
    zPos := 0, zNeg := 0 }

/-- `_calculateCentroid` (lines 116-121): if the current centroid equals
`(0, 0, 0)` the centroid becomes the vertex, otherwise the componentwise
average of the current centroid and the vertex. -/
def calculateCentroid (c v : Vec3) : Vec3 :=
  if c = vzero then v
  else ⟨(c.x + v.x) / 2, (c.y + v.y) / 2, (c.z + v.z) / 2⟩

/-- `_readVertex` (lines 124-147): update the six cartesian extents from
the vertex components, then update the centroid. -/
def readVertex (s : STLState) (v : Vec3) : STLState :=
  let s := if v.x ≥ 0 then (if v.x > s.xPos then { s with xPos := v.x } else s)
           else (if v.x < s.xNeg then { s with xNeg := v.x } else s)
  let s := if v.y ≥ 0 then (if v.y > s.yPos then { s with yPos := v.y } else s)
           else (if v.y < s.yNeg then { s with yNeg := v.y } else s)
  let s := if v.z ≥ 0 then (if v.z > s.zPos then { s with zPos := v.z } else s)
           else (if v.z < s.zNeg then { s with zNeg := v.z } else s)
  { s with centroid := calculateCentroid s.centroid v }

/-- The six-term scalar-triple-product expansion of
`_signedVolumeOfTriangle` (lines 170-177): the quantity added to
`self._volume` for one triangle. -/
def signedVolumeOfTriangle (v1 v2 v3 : Vec3) : ℚ :=
  (1 / 6) * (-(v3.x * v2.y * v1.z) + v2.x * v3.y * v1.z
    + v3.x * v1.y * v2.z - v1.x * v3.y * v2.z
    - v2.x * v1.y * v3.z + v1.x * v2.y * v3.z)

/-- The state change performed by `_readTriangle` (lines 151-166) once all
five `_unpack` calls have succeeded: the three `_readVertex` calls, the
six appends, and the volume accumulation. -/
def processTriangle (s : STLState) (normal v1 v2 v3 : Vec3) (attr : Int) :
    STLState :=
  let s1 := readVertex s v1
  let s2 := readVertex s1 v2
  let s3 := readVertex s2 v3
  { s3 with
    normals := s3.normals ++ [normal],
    vertices := s3.vertices ++ [v1, v2, v3],
    triangles := s3.triangles ++ [(v1, v2, v3)],
    bytecount := s3.bytecount ++ [attr],
    volume := s3.volume + signedVolumeOfTriangle v1 v2 v3 }

/-- The `n` bytes of `data` starting at offset `pos` (what
`self._file.read(n)` returns from cursor `pos` when they all exist). -/
def byteSlice (data : List Nat) (pos n : Nat) : List Nat :=
  (data.drop pos).take n

/-- `_unpack` (lines 111-113): `self._file.read(length)` from cursor `pos`
followed by `struct.unpack`.  `read` returns the `n` bytes starting at
`pos` when they all exist; otherwise it returns fewer bytes and
`struct.unpack` raises `struct.error`, modelled as `none`. -/
def unpack (data : List Nat) (pos n : Nat) : Option (List Nat) :=
  if pos + n ≤ data.length then some (byteSlice data pos n) else none

/-- The value of `struct.unpack("@i", b)` for 4 bytes `b`: a signed 32-bit
integer in native byte order, modelled as little-endian (the byte order of
the machines the source targets). -/
def decodeI32 (b : List Nat) : Int :=
  let u := b.headI + 256 * b.tail.headI + 65536 * b.tail.tail.headI
    + 16777216 * b.tail.tail.tail.headI
  if u < 2147483648 then (u : Int) else (u : Int) - 4294967296

/-- The value of `struct.unpack("<h", b)` for 2 bytes `b`: a little-endian
signed 16-bit integer (the attribute byte count field). -/
def decodeI16 (b : List Nat) : Int :=
  let u := b.headI + 256 * b.tail.headI
  if u < 32768 then (u : Int) else (u : Int) - 65536

/-- Result of running Python code that mutates the reader's state and may
raise an exception: `ok` is normal return, `exn` is an uncaught exception
escaping with the state as mutated up to the raise. -/
inductive PassResult where
  | ok (s : STLState)
  | exn (s : STLState)
deriving DecidableEq, Repr

/-- The state carried by a `PassResult`, whichever constructor. -/
def PassResult.state : PassResult → STLState
  | .ok s => s
  | .exn s => s

/-- Whether a `PassResult` is an uncaught exception. -/
def PassResult.isExn : PassResult → Bool
  | .ok _ => false
  | .exn _ => true

/-- `_readTriangle` (lines 151-166) with the cursor at `pos`: five
`_unpack` calls (12+12+12+12+2 bytes), with `_readVertex` applied to each
vertex as soon as it is unpacked; on success the appends and the volume
update happen and the cursor advances by 50.  A failed `_unpack` raises,
leaving the updates made so far in place.  `dec` decodes a 12-byte
`"<3f"` field. -/
def readTriangle (dec : List Nat → Vec3) (data : List Nat) (pos : Nat)
    (s : STLState) : PassResult × Nat :=
  match unpack data pos 12 with
  | none => (.exn s, pos)
  | some nb =>
    match unpack data (pos + 12) 12 with
    | none => (.exn s, pos)
    | some b1 =>
      let v1 := dec b1
      let s1 := readVertex s v1
      match unpack data (pos + 24) 12 with
      | none => (.exn s1, pos)
      | some b2 =>
        let v2 := dec b2
        let s2 := readVertex s1 v2
        match unpack data (pos + 36) 12 with
        | none => (.exn s2, pos)
        | some b3 =>
          let v3 := dec b3
          let s3 := readVertex s2 v3
          match unpack data (pos + 48) 2 with
          | none => (.exn s3, pos)
          | some ab =>
            (.ok { s3 with
              normals := s3.normals ++ [dec nb],
              vertices := s3.vertices ++ [v1, v2, v3],
              triangles := s3.triangles ++ [(v1, v2, v3)],
              bytecount := s3.bytecount ++ [decodeI16 ab],
              volume := s3.volume + signedVolumeOfTriangle v1 v2 v3 },
             pos + 50)

/-- The loop `for i in range(0, self._numberOfTriangles)` of
`_calculateDimensions` (lines 94-95), iterated `k` times from cursor
`pos`; an exception raised by `_readTriangle` aborts the loop. -/
def readTriangles (dec : List Nat → Vec3) (data : List Nat) :
    Nat → Nat → STLState → PassResult × Nat
  | 0, pos, s => (.ok s, pos)
  | k + 1, pos, s =>
    match readTriangle dec data pos s with
    | (.ok s1, pos1) => readTriangles dec data k pos1 s1
    | (.exn s1, pos1) => (.exn s1, pos1)

/-- `_calculateDimensions` (lines 90-99): `_skipHeader` moves the cursor
to 80 (`seek` cannot fail), `_readLength` unpacks the 4-byte native-endian
signed triangle count (raising if fewer than 4 bytes remain), the loop
reads that many triangles (`range` over a negative count is empty), and on
normal completion width/height/depth are derived from the extents.  An
exception leaves width/height/depth unassigned. -/
def calculateDimensions (dec : List Nat → Vec3) (data : List Nat)
    (s : STLState) : PassResult :=
  match unpack data 80 4 with
  | none => .exn s
  | some cb =>
    let n := decodeI32 cb
    let s1 := { s with numberOfTriangles := n }
    match readTriangles dec data n.toNat 84 s1 with
    | (.exn s2, _) => .exn s2
    | (.ok s2, _) =>
      .ok { s2 with
        width := s2.xPos - s2.xNeg,
        height := s2.yPos - s2.yNeg,
        depth := s2.zPos - s2.zNeg }

/-- `__init__` (lines 70-86).  `openResult` stands for the outcome of
`open(self._path, "rb")`: `some data` gives the file's bytes, `none`
means `open` raised an `IOError` (caught by the bare `except`, which sets
`_errorCode = 2`).  A filename without a case-insensitive `.stl` suffix
sets `_errorCode = 1` without opening.  `_calculateDimensions` runs only
when `_failed` is still false, and runs OUTSIDE the `try` block, so its
exceptions escape the constructor. -/
def stlInit (dec : List Nat → Vec3) (path : String)
    (openResult : Option (List Nat)) : PassResult :=
  if path.toLower.endsWith ".stl" then
    match openResult with
    | some data => calculateDimensions dec data initState
    | none => .ok { initState with failed := true, errorCode := 2 }
  else
    .ok { initState with failed := true, errorCode := 1 }

/-- The error code the source assigns when the filename lacks the `.stl`
suffix (line 80); the spec's `ErrorKind::InvalidExtension`. -/
def invalidExtensionCode : Int := 1

/-- The error code the source assigns when `open` raises (line 83); the
spec's `ErrorKind::OpenFailed`. -/
def openFailedCode : Int := 2

/-- Python class-attribute semantics for a second `STL` instance: the
list-valued class attributes (`_normals`, `_vertices`, `_triangles`,
`_bytecount`) are single shared list objects mutated in place by
`.append`, so a fresh instance resolves them to the lists as left by
earlier instances; every scalar attribute (and the tuple `_centroid`) is
only ever rebound on the instance, so a fresh instance sees the class
defaults for those. -/
def sharedClassState (prev : STLState) : STLState :=
  { initState with
    normals := prev.normals, vertices := prev.vertices,
    triangles := prev.triangles, bytecount := prev.bytecount }

/-- The decoded content of one 50-byte triangle record: normal, three
vertices, attribute byte count. -/
structure TriRecord where
  normal : Vec3
  v1 : Vec3
  v2 : Vec3
  v3 : Vec3
  attr : Int
deriving DecidableEq, Repr

/-- The decode pass at the level of already-decoded triangle records: the
fold of `processTriangle` over the records in file order (what
`_calculateDimensions`' loop does to the state when every `_unpack`
succeeds). -/
def runMesh (s : STLState) (ts : List TriRecord) : STLState :=
  ts.foldl (fun a t => processTriangle a t.normal t.v1 t.v2 t.v3 t.attr) s

/-- Winding reversal of one triangle record: `(v1, v2, v3) ↦ (v1, v3, v2)`. -/
def reverseWinding (t : TriRecord) : TriRecord :=
  { t with v2 := t.v3, v3 := t.v2 }

/-- A concrete `"<3f"` decoder (all fields decode to the zero vector),
used to instantiate the abstract decoder in concrete evaluations. -/
def dec0 : List Nat → Vec3 := fun _ => vzero

/-- An 84-byte file: 80-byte header and a declared triangle count of 0. -/
def dataCount0 : List Nat := List.replicate 80 0 ++ [0, 0, 0, 0]

/-- A truncated 84-byte file: header plus a declared count of 1, but no
triangle bytes follow. -/
def dataTrunc : List Nat := List.replicate 80 0 ++ [1, 0, 0, 0]

/-- An 84-byte file whose 4-byte count field decodes to the signed value
`-1` (bytes `FF FF FF FF`). -/
def dataNegCount : List Nat := List.replicate 80 0 ++ [255, 255, 255, 255]

/-- A 134-byte file: header, declared count 1, and one complete 50-byte
triangle record (all zero bytes). -/
def dataOneTriangle : List Nat :=
  List.replicate 80 0 ++ [1, 0, 0, 0] ++ List.replicate 50 0

/-- The signedness invariant of the six extents: the positive-side
extents never go below 0 and the negative-side extents never go above 0
(they start at 0 and are only moved further from 0). -/
def extentsSigned (s : STLState) : Prop :=
  0 ≤ s.xPos ∧ s.xNeg ≤ 0 ∧ 0 ≤ s.yPos ∧ s.yNeg ≤ 0 ∧ 0 ≤ s.zPos ∧ s.zNeg ≤ 0

/-- The centroid the decode pass computes for a sequence of vertices in
read order: the fold of `_calculateCentroid` starting from the initial
zero centroid. -/
def runCentroid (vs : List Vec3) : Vec3 :=
  vs.foldl calculateCentroid vzero

/-- Modelled from the spec wording of the centroid update ("if the
running centroid is still at its initial zero vector, set it to this
vertex; otherwise replace it with the elementwise average"): the Boolean
tracks whether the centroid has been updated before, so the
set-to-vertex case applies only while the centroid is untouched. -/
def specCentroidStep : Bool × Vec3 → Vec3 → Bool × Vec3 :=
  fun p v =>
    if p.1 then
      (true, ⟨(p.2.x + v.x) / 2, (p.2.y + v.y) / 2, (p.2.z + v.z) / 2⟩)
    else (true, v)

/-- The centroid for a sequence of vertices under the spec wording:
fold of `specCentroidStep` starting untouched at the zero vector. -/
def specCentroid (vs : List Vec3) : Vec3 :=
  (vs.foldl specCentroidStep (false, vzero)).2

/-- The componentwise arithmetic mean of a list of vectors (what a true
centroid of the vertices would be). -/
def arithMean (vs : List Vec3) : Vec3 :=
  ⟨(vs.map Vec3.x).sum / vs.length, (vs.map Vec3.y).sum / vs.length,
    (vs.map Vec3.z).sum / vs.length⟩

@[simp] theorem readVertex_xPos (s : STLState) (v : Vec3) :
    (readVertex s v).xPos = if 0 ≤ v.x then max s.xPos v.x else s.xPos := by
  unfold readVertex
  simp only [apply_ite STLState.xPos]
  simp only [ge_iff_le, ite_self, max_def]
  split_ifs <;> first | rfl | linarith

@[simp] theorem readVertex_xNeg (s : STLState) (v : Vec3) :
    (readVertex s v).xNeg = if 0 ≤ v.x then s.xNeg else min s.xNeg v.x := by
  unfold readVertex
  simp only [apply_ite STLState.xNeg]
  simp only [ge_iff_le, ite_self, min_def]
  split_ifs <;> first | rfl | linarith

@[simp] theorem readVertex_yPos (s : STLState) (v : Vec3) :
    (readVertex s v).yPos = if 0 ≤ v.y then max s.yPos v.y else s.yPos := by
  unfold readVertex
  simp only [apply_ite STLState.yPos]
  simp only [ge_iff_le, ite_self, max_def]
  split_ifs <;> first | rfl | linarith

@[simp] theorem readVertex_yNeg (s : STLState) (v : Vec3) :
    (readVertex s v).yNeg = if 0 ≤ v.y then s.yNeg else min s.yNeg v.y := by
  unfold readVertex
  simp only [apply_ite STLState.yNeg]
  simp only [ge_iff_le, ite_self, min_def]
  split_ifs <;> first | rfl | linarith

@[simp] theorem readVertex_zPos (s : STLState) (v : Vec3) :
    (readVertex s v).zPos = if 0 ≤ v.z then max s.zPos v.z else s.zPos := by
  unfold readVertex
  simp only [apply_ite STLState.zPos]
  simp only [ge_iff_le, ite_self, max_def]
  split_ifs <;> first | rfl | linarith

@[simp] theorem readVertex_zNeg (s : STLState) (v : Vec3) :
    (readVertex s v).zNeg = if 0 ≤ v.z then s.zNeg else min s.zNeg v.z := by
  unfold readVertex
  simp only [apply_ite STLState.zNeg]
  simp only [ge_iff_le, ite_self, min_def]
  split_ifs <;> first | rfl | linarith

@[simp] theorem readVertex_centroid (s : STLState) (v : Vec3) :
    (readVertex s v).centroid = calculateCentroid s.centroid v := by
  unfold readVertex
  simp only [apply_ite STLState.centroid, ite_self]

@[simp] theorem readVertex_errorCode (s : STLState) (v : Vec3) :
    (readVertex s v).errorCode = s.errorCode := by
  unfold readVertex
  simp only [apply_ite STLState.errorCode, ite_self]

@[simp] theorem readVertex_failed (s : STLState) (v : Vec3) :
    (readVertex s v).failed = s.failed := by
  unfold readVertex
  simp only [apply_ite STLState.failed, ite_self]

@[simp] theorem readVertex_normals (s : STLState) (v : Vec3) :
    (readVertex s v).normals = s.normals := by
  unfold readVertex
  simp only [apply_ite STLState.normals, ite_self]

@[simp] theorem readVertex_vertices (s : STLState) (v : Vec3) :
    (readVertex s v).vertices = s.vertices := by
  unfold readVertex
  simp only [apply_ite STLState.vertices, ite_self]

@[simp] theorem readVertex_triangles (s : STLState) (v : Vec3) :
    (readVertex s v).triangles = s.triangles := by
  unfold readVertex
  simp only [apply_ite STLState.triangles, ite_self]

@[simp] theorem readVertex_bytecount (s : STLState) (v : Vec3) :
    (readVertex s v).bytecount = s.bytecount := by
  unfold readVertex
  simp only [apply_ite STLState.bytecount, ite_self]

@[simp] theorem readVertex_numberOfTriangles (s : STLState) (v : Vec3) :
    (readVertex s v).numberOfTriangles = s.numberOfTriangles := by
  unfold readVertex
  simp only [apply_ite STLState.numberOfTriangles, ite_self]

@[simp] theorem readVertex_volume (s : STLState) (v : Vec3) :
    (readVertex s v).volume = s.volume := by
  unfold readVertex
  simp only [apply_ite STLState.volume, ite_self]

@[simp] theorem readVertex_width (s : STLState) (v : Vec3) :
    (readVertex s v).width = s.width := by
  unfold readVertex
  simp only [apply_ite STLState.width, ite_self]

@[simp] theorem readVertex_height (s : STLState) (v : Vec3) :
    (readVertex s v).height = s.height := by
  unfold readVertex
  simp only [apply_ite STLState.height, ite_self]

@[simp] theorem readVertex_depth (s : STLState) (v : Vec3) :
    (readVertex s v).depth = s.depth := by
  unfold readVertex
  simp only [apply_ite STLState.depth, ite_self]

@[simp] theorem processTriangle_normals (s : STLState) (n v1 v2 v3 : Vec3) (a : Int) :
    (processTriangle s n v1 v2 v3 a).normals = s.normals ++ [n] := by
  simp [processTriangle]

@[simp] theorem processTriangle_vertices (s : STLState) (n v1 v2 v3 : Vec3) (a : Int) :
    (processTriangle s n v1 v2 v3 a).vertices = s.vertices ++ [v1, v2, v3] := by
  simp [processTriangle]

@[simp] theorem processTriangle_triangles (s : STLState) (n v1 v2 v3 : Vec3) (a : Int) :
    (processTriangle s n v1 v2 v3 a).triangles = s.triangles ++ [(v1, v2, v3)] := by
  simp [processTriangle]

@[simp] theorem processTriangle_bytecount (s : STLState) (n v1 v2 v3 : Vec3) (a : Int) :
    (processTriangle s n v1 v2 v3 a).bytecount = s.bytecount ++ [a] := by
  simp [processTriangle]

@[simp] theorem processTriangle_numberOfTriangles (s : STLState) (n v1 v2 v3 : Vec3) (a : Int) :
    (processTriangle s n v1 v2 v3 a).numberOfTriangles = s.numberOfTriangles := by
  simp [processTriangle]

@[simp] theorem processTriangle_failed (s : STLState) (n v1 v2 v3 : Vec3) (a : Int) :
    (processTriangle s n v1 v2 v3 a).failed = s.failed := by
  simp [processTriangle]

@[simp] theorem processTriangle_errorCode (s : STLState) (n v1 v2 v3 : Vec3) (a : Int) :
    (processTriangle s n v1 v2 v3 a).errorCode = s.errorCode := by
  simp [processTriangle]

@[simp] theorem processTriangle_volume (s : STLState) (n v1 v2 v3 : Vec3) (a : Int) :
    (processTriangle s n v1 v2 v3 a).volume = s.volume + signedVolumeOfTriangle v1 v2 v3 := by
  simp [processTriangle]

theorem runMesh_volume (ts : List TriRecord) : ∀ s : STLState,
    (runMesh s ts).volume
      = s.volume + (ts.map fun t => signedVolumeOfTriangle t.v1 t.v2 t.v3).sum := by
  induction ts with
  | nil => intro s; simp [runMesh]
  | cons t ts ih =>
    intro s
    have hstep : runMesh s (t :: ts)
        = runMesh (processTriangle s t.normal t.v1 t.v2 t.v3 t.attr) ts := rfl
    rw [hstep, ih]
    simp only [processTriangle_volume, List.map_cons, List.sum_cons]
    ring

theorem sum_map_neg_rat {α : Type} (l : List α) (f : α → ℚ) :
    (l.map fun t => -f t).sum = -(l.map f).sum := by
  induction l with
  | nil => simp
  | cons a l ih => simp only [List.map_cons, List.sum_cons, ih]; ring

/-- When the full 50-byte record is available, `_readTriangle` succeeds
and its effect is `processTriangle` applied to the decoded fields of the
record's five slices, with the cursor advanced by 50. -/
theorem readTriangle_ok (dec : List Nat → Vec3) (data : List Nat) (pos : Nat) (s : STLState)
    (h : pos + 50 ≤ data.length) :
    readTriangle dec data pos s =
      (.ok (processTriangle s (dec (byteSlice data pos 12)) (dec (byteSlice data (pos + 12) 12))
        (dec (byteSlice data (pos + 24) 12)) (dec (byteSlice data (pos + 36) 12))
        (decodeI16 (byteSlice data (pos + 48) 2))), pos + 50) := by
  have h1 : pos + 12 ≤ data.length := by omega
  have h2 : pos + 12 + 12 ≤ data.length := by omega
  have h3 : pos + 24 + 12 ≤ data.length := by omega
  have h4 : pos + 36 + 12 ≤ data.length := by omega
  have h5 : pos + 48 + 2 ≤ data.length := by omega
  simp [readTriangle, unpack, processTriangle, h1, h2, h3, h4, h5]

/-- When fewer than 50 bytes remain, one of `_readTriangle`'s `_unpack`
calls raises; the sequences, failure flag, error code and declared count
are left untouched (only extents and centroid may have been updated by
the vertices read before the failing call). -/
theorem readTriangle_exn (dec : List Nat → Vec3) (data : List Nat) (pos : Nat) (s : STLState)
    (h : data.length < pos + 50) :
    ((readTriangle dec data pos s).1.isExn = true)
    ∧ ((readTriangle dec data pos s).1.state.failed = s.failed)
    ∧ ((readTriangle dec data pos s).1.state.errorCode = s.errorCode)
    ∧ ((readTriangle dec data pos s).1.state.normals = s.normals)
    ∧ ((readTriangle dec data pos s).1.state.vertices = s.vertices)
    ∧ ((readTriangle dec data pos s).1.state.triangles = s.triangles)
    ∧ ((readTriangle dec data pos s).1.state.bytecount = s.bytecount)
    ∧ ((readTriangle dec data pos s).1.state.numberOfTriangles = s.numberOfTriangles)
    ∧ ((readTriangle dec data pos s).2 = pos) := by
  have h5 : ¬ (pos + 48 + 2 ≤ data.length) := by omega
  by_cases h1 : pos + 12 ≤ data.length <;>
    by_cases h2 : pos + 12 + 12 ≤ data.length <;>
      by_cases h3 : pos + 24 + 12 ≤ data.length <;>
        by_cases h4 : pos + 36 + 12 ≤ data.length <;>
          simp [readTriangle, unpack, h1, h2, h3, h4, h5, PassResult.isExn, PassResult.state]

/-- A successful `_readTriangle` appends one normal, three vertices, one
triangle and one byte count, preserves the failure fields and the
declared count, and advances the cursor by 50. -/
theorem readTriangle_ok_fields (dec : List Nat → Vec3) (data : List Nat) (pos : Nat)
    (s s1 : STLState) (p1 : Nat) (h : readTriangle dec data pos s = (.ok s1, p1)) :
    s1.normals.length = s.normals.length + 1
    ∧ s1.vertices.length = s.vertices.length + 3
    ∧ s1.triangles.length = s.triangles.length + 1
    ∧ s1.bytecount.length = s.bytecount.length + 1
    ∧ s1.numberOfTriangles = s.numberOfTriangles
    ∧ s1.failed = s.failed
    ∧ s1.errorCode = s.errorCode
    ∧ p1 = pos + 50 := by
  have hlen : pos + 50 ≤ data.length := by
    by_contra hc
    have := (readTriangle_exn dec data pos s (by omega)).1
    rw [h] at this
    simp [PassResult.isExn] at this
  rw [readTriangle_ok dec data pos s hlen] at h
  rw [Prod.mk.injEq, PassResult.ok.injEq] at h
  obtain ⟨ha, hb⟩ := h
  subst hb
  rw [← ha]
  simp

theorem readTriangles_ok_fields (dec : List Nat → Vec3) (data : List Nat) :
    ∀ (k pos : Nat) (s s1 : STLState) (p1 : Nat),
      readTriangles dec data k pos s = (.ok s1, p1) →
      s1.normals.length = s.normals.length + k
      ∧ s1.vertices.length = s.vertices.length + 3 * k
      ∧ s1.triangles.length = s.triangles.length + k
      ∧ s1.bytecount.length = s.bytecount.length + k
      ∧ s1.numberOfTriangles = s.numberOfTriangles
      ∧ s1.failed = s.failed
      ∧ s1.errorCode = s.errorCode := by
  intro k
  induction k with
  | zero =>
    intro pos s s1 p1 h
    rw [readTriangles, Prod.mk.injEq, PassResult.ok.injEq] at h
    obtain ⟨ha, _⟩ := h
    subst ha
    simp
  | succ k ih =>
    intro pos s s1 p1 h
    rw [readTriangles] at h
    cases hr : readTriangle dec data pos s with
    | mk r p2 =>
      rw [hr] at h
      cases r with
      | ok s2 =>
        simp only [] at h
        obtain ⟨a1, a2, a3, a4, a5, a6, a7, _⟩ := readTriangle_ok_fields dec data pos s s2 p2 hr
        obtain ⟨b1, b2, b3, b4, b5, b6, b7⟩ := ih p2 s2 s1 p1 h
        refine ⟨by omega, by omega, by omega, by omega, ?_, ?_, ?_⟩
        · rw [b5, a5]
        · rw [b6, a6]
        · rw [b7, a7]
      | exn s2 => simp at h

theorem readTriangles_trunc (dec : List Nat → Vec3) (data : List Nat) :
    ∀ (k pos : Nat) (s : STLState), pos ≤ data.length → data.length < pos + 50 * k →
      ((readTriangles dec data k pos s).1.isExn = true)
      ∧ ((readTriangles dec data k pos s).1.state.failed = s.failed)
      ∧ ((readTriangles dec data k pos s).1.state.errorCode = s.errorCode)
      ∧ ((readTriangles dec data k pos s).1.state.normals.length
          = s.normals.length + (data.length - pos) / 50)
      ∧ ((readTriangles dec data k pos s).1.state.vertices.length
          = s.vertices.length + 3 * ((data.length - pos) / 50))
      ∧ ((readTriangles dec data k pos s).1.state.triangles.length
          = s.triangles.length + (data.length - pos) / 50)
      ∧ ((readTriangles dec data k pos s).1.state.bytecount.length
          = s.bytecount.length + (data.length - pos) / 50)
      ∧ ((readTriangles dec data k pos s).1.state.numberOfTriangles
          = s.numberOfTriangles) := by
  intro k
  induction k with
  | zero =>
    intro pos s hp hl
    exact absurd hl (by omega)
  | succ k ih =>
    intro pos s hp hl
    by_cases hq : pos + 50 ≤ data.length
    · have hstep : readTriangles dec data (k + 1) pos s
          = readTriangles dec data k (pos + 50)
              (processTriangle s (dec (byteSlice data pos 12)) (dec (byteSlice data (pos + 12) 12))
                (dec (byteSlice data (pos + 24) 12)) (dec (byteSlice data (pos + 36) 12))
                (decodeI16 (byteSlice data (pos + 48) 2))) := by
        rw [readTriangles, readTriangle_ok dec data pos s hq]
      rw [hstep]
      obtain ⟨b1, b2, b3, b4, b5, b6, b7, b8⟩ := ih (pos + 50) _ hq (by omega)
      refine ⟨b1, ?_, ?_, ?_, ?_, ?_, ?_, ?_⟩ <;>
        simp only [b2, b3, b4, b5, b6, b7, b8, processTriangle_failed, processTriangle_errorCode,
          processTriangle_numberOfTriangles, processTriangle_normals, processTriangle_vertices,
          processTriangle_triangles, processTriangle_bytecount, List.length_append,
          List.length_cons, List.length_nil] <;> omega
    · rw [readTriangles]
      have hexn := readTriangle_exn dec data pos s (by omega)
      cases hr : readTriangle dec data pos s with
      | mk r p2 =>
        rw [hr] at hexn
        cases r with
        | ok s2 => simp [PassResult.isExn] at hexn
        | exn s2 =>
          simp only [PassResult.isExn, PassResult.state] at hexn ⊢
          obtain ⟨_, e2, e3, e4, e5, e6, e7, e8, _⟩ := hexn
          have hz : (data.length - pos) / 50 = 0 := by omega
          rw [hz]
          exact ⟨trivial, e2, e3, by rw [e4]; omega, by rw [e5]; omega, by rw [e6]; omega,
            by rw [e7]; omega, e8⟩

theorem readVertex_extentsSigned (s : STLState) (v : Vec3) (h : extentsSigned s) :
    extentsSigned (readVertex s v) := by
  obtain ⟨h1, h2, h3, h4, h5, h6⟩ := h
  unfold extentsSigned
  simp only [readVertex_xPos, readVertex_xNeg, readVertex_yPos, readVertex_yNeg,
    readVertex_zPos, readVertex_zNeg]
  refine ⟨?_, ?_, ?_, ?_, ?_, ?_⟩ <;> split_ifs <;>
    first
      | assumption
      | exact le_max_of_le_left (by assumption)
      | exact min_le_of_left_le (by assumption)

theorem processTriangle_extentsSigned (s : STLState) (n v1 v2 v3 : Vec3) (a : Int)
    (h : extentsSigned s) : extentsSigned (processTriangle s n v1 v2 v3 a) := by
  have h3 := readVertex_extentsSigned _ v3
    (readVertex_extentsSigned _ v2 (readVertex_extentsSigned _ v1 h))
  unfold extentsSigned at h3 ⊢
  simpa [processTriangle] using h3

theorem readTriangle_extentsSigned (dec : List Nat → Vec3) (data : List Nat) (pos : Nat)
    (s : STLState) (h : extentsSigned s) :
    extentsSigned ((readTriangle dec data pos s).1.state) := by
  unfold readTriangle
  repeat' split
  all_goals
    simp only [PassResult.state]
  · exact h
  · exact h
  · exact readVertex_extentsSigned _ _ h
  · exact readVertex_extentsSigned _ _ (readVertex_extentsSigned _ _ h)
  · exact readVertex_extentsSigned _ _
      (readVertex_extentsSigned _ _ (readVertex_extentsSigned _ _ h))
  · rename_i a1 nb h1 a2 b1 h2 a3 b2 h3 a4 b3 h4 a5 ab h5
    exact processTriangle_extentsSigned s (dec nb) (dec b1) (dec b2) (dec b3)
      (decodeI16 ab) h

theorem readTriangles_extentsSigned (dec : List Nat → Vec3) (data : List Nat) :
    ∀ (k pos : Nat) (s : STLState), extentsSigned s →
      extentsSigned ((readTriangles dec data k pos s).1.state) := by
  intro k
  induction k with
  | zero => intro pos s h; exact h
  | succ k ih =>
    intro pos s h
    rw [readTriangles]
    have hstep := readTriangle_extentsSigned dec data pos s h
    cases hr : readTriangle dec data pos s with
    | mk r p2 =>
      rw [hr] at hstep
      cases r with
      | ok s2 => exact ih p2 s2 hstep
      | exn s2 => exact hstep

theorem foldl_readVertex_xNeg (vs : List Vec3) : ∀ s : STLState, (∀ v ∈ vs, 0 ≤ v.x) →
    (vs.foldl readVertex s).xNeg = s.xNeg := by
  induction vs with
  | nil => intro s _; rfl
  | cons v vs ih =>
    intro s h
    simp only [List.foldl_cons]
    rw [ih _ (fun w hw => h w (List.mem_cons_of_mem _ hw))]
    simp [h v (List.mem_cons_self v vs)]

theorem foldl_readVertex_yNeg (vs : List Vec3) : ∀ s : STLState, (∀ v ∈ vs, 0 ≤ v.y) →
    (vs.foldl readVertex s).yNeg = s.yNeg := by
  induction vs with
  | nil => intro s _; rfl
  | cons v vs ih =>
    intro s h
    simp only [List.foldl_cons]
    rw [ih _ (fun w hw => h w (List.mem_cons_of_mem _ hw))]
    simp [h v (List.mem_cons_self v vs)]

theorem foldl_readVertex_zNeg (vs : List Vec3) : ∀ s : STLState, (∀ v ∈ vs, 0 ≤ v.z) →
    (vs.foldl readVertex s).zNeg = s.zNeg := by
  induction vs with
  | nil => intro s _; rfl
  | cons v vs ih =>
    intro s h
    simp only [List.foldl_cons]
    rw [ih _ (fun w hw => h w (List.mem_cons_of_mem _ hw))]
    simp [h v (List.mem_cons_self v vs)]

theorem foldl_readVertex_xPos (vs : List Vec3) : ∀ s : STLState, s.xPos = 0 →
    (∀ v ∈ vs, v.x ≤ 0) → (vs.foldl readVertex s).xPos = 0 := by
  induction vs with
  | nil => intro s h0 _; exact h0
  | cons v vs ih =>
    intro s h0 h
    simp only [List.foldl_cons]
    apply ih
    · rw [readVertex_xPos, h0]
      have hv := h v (List.mem_cons_self v vs)
      split_ifs with hge
      · simp [le_antisymm hv hge]
      · rfl
    · exact fun w hw => h w (List.mem_cons_of_mem _ hw)

theorem foldl_readVertex_yPos (vs : List Vec3) : ∀ s : STLState, s.yPos = 0 →
    (∀ v ∈ vs, v.y ≤ 0) → (vs.foldl readVertex s).yPos = 0 := by
  induction vs with
  | nil => intro s h0 _; exact h0
  | cons v vs ih =>
    intro s h0 h
    simp only [List.foldl_cons]
    apply ih
    · rw [readVertex_yPos, h0]
      have hv := h v (List.mem_cons_self v vs)
      split_ifs with hge
      · simp [le_antisymm hv hge]
      · rfl
    · exact fun w hw => h w (List.mem_cons_of_mem _ hw)

theorem foldl_readVertex_zPos (vs : List Vec3) : ∀ s : STLState, s.zPos = 0 →
    (∀ v ∈ vs, v.z ≤ 0) → (vs.foldl readVertex s).zPos = 0 := by
  induction vs with
  | nil => intro s h0 _; exact h0
  | cons v vs ih =>
    intro s h0 h
    simp only [List.foldl_cons]
    apply ih
    · rw [readVertex_zPos, h0]
      have hv := h v (List.mem_cons_self v vs)
      split_ifs with hge
      · simp [le_antisymm hv hge]
      · rfl
    · exact fun w hw => h w (List.mem_cons_of_mem _ hw)

/-- C1: for every triangle decoded, the reader adds to the running volume
total the signed volume of the tetrahedron formed by the origin and the
triangle's three vertices, computed as the six-term scalar-triple-product
expansion divided by 6, and over a whole pass the volume is the sum of
these per-triangle terms accumulated in file order. -/
theorem c1_signed_volume_accumulation :
    (∀ (s : STLState) (normal v1 v2 v3 : Vec3) (a : Int),
      (processTriangle s normal v1 v2 v3 a).volume
        = s.volume + (-(v3.x * v2.y * v1.z) + v2.x * v3.y * v1.z
            + v3.x * v1.y * v2.z - v1.x * v3.y * v2.z
            - v2.x * v1.y * v3.z + v1.x * v2.y * v3.z) / 6)
    ∧ (∀ ts : List TriRecord,
      (runMesh initState ts).volume
        = (ts.map fun t => signedVolumeOfTriangle t.v1 t.v2 t.v3).sum) := by
  constructor
  · intro s n v1 v2 v3 a
    rw [processTriangle_volume]
    unfold signedVolumeOfTriangle
    ring
  · intro ts
    rw [runMesh_volume]
    simp [initState]

/-- C4: replacing every triangle `(v1, v2, v3)` of a mesh with its
winding reversal `(v1, v3, v2)` negates the total volume the decode pass
computes. -/
theorem c4_winding_reversal_negates_volume :
    ∀ ts : List TriRecord,
      (runMesh initState (ts.map reverseWinding)).volume
        = -(runMesh initState ts).volume := by
  intro ts
  rw [runMesh_volume, runMesh_volume]
  rw [List.map_map]
  have hneg : ((fun t => signedVolumeOfTriangle t.v1 t.v2 t.v3) ∘ reverseWinding)
      = fun t => -(signedVolumeOfTriangle t.v1 t.v2 t.v3) := by
    funext t
    simp only [Function.comp_apply, reverseWinding, signedVolumeOfTriangle]
    ring
  rw [hneg, sum_map_neg_rat]
  show initState.volume + _ = -(initState.volume + _)
  simp [initState]

/-- C5: for every vertex read, each axis extent is updated by
`_readVertex` as follows: a component `≥ 0` raises the positive-side
extent to the maximum of its current value and the component, a negative
component lowers the negative-side extent to the minimum of its current
value and the component; all six extents start at 0, so a mesh lying
entirely on one side of an axis reports 0 for the non-spanning side. -/
theorem c5_extent_updates :
    (∀ (s : STLState) (v : Vec3),
      (readVertex s v).xPos = (if 0 ≤ v.x then max s.xPos v.x else s.xPos)
      ∧ (readVertex s v).xNeg = (if 0 ≤ v.x then s.xNeg else min s.xNeg v.x)
      ∧ (readVertex s v).yPos = (if 0 ≤ v.y then max s.yPos v.y else s.yPos)
      ∧ (readVertex s v).yNeg = (if 0 ≤ v.y then s.yNeg else min s.yNeg v.y)
      ∧ (readVertex s v).zPos = (if 0 ≤ v.z then max s.zPos v.z else s.zPos)
      ∧ (readVertex s v).zNeg = (if 0 ≤ v.z then s.zNeg else min s.zNeg v.z))
    ∧ (initState.xPos = 0 ∧ initState.xNeg = 0 ∧ initState.yPos = 0
      ∧ initState.yNeg = 0 ∧ initState.zPos = 0 ∧ initState.zNeg = 0)
    ∧ (∀ vs : List Vec3,
      ((∀ v ∈ vs, 0 ≤ v.x) → (vs.foldl readVertex initState).xNeg = 0)
      ∧ ((∀ v ∈ vs, v.x ≤ 0) → (vs.foldl readVertex initState).xPos = 0)
      ∧ ((∀ v ∈ vs, 0 ≤ v.y) → (vs.foldl readVertex initState).yNeg = 0)
      ∧ ((∀ v ∈ vs, v.y ≤ 0) → (vs.foldl readVertex initState).yPos = 0)
      ∧ ((∀ v ∈ vs, 0 ≤ v.z) → (vs.foldl readVertex initState).zNeg = 0)
      ∧ ((∀ v ∈ vs, v.z ≤ 0) → (vs.foldl readVertex initState).zPos = 0)) := by
  refine ⟨?_, ⟨rfl, rfl, rfl, rfl, rfl, rfl⟩, ?_⟩
  · intro s v
    exact ⟨readVertex_xPos s v, readVertex_xNeg s v, readVertex_yPos s v,
      readVertex_yNeg s v, readVertex_zPos s v, readVertex_zNeg s v⟩
  · intro vs
    exact ⟨fun h => foldl_readVertex_xNeg vs initState h,
      fun h => foldl_readVertex_xPos vs initState rfl h,
      fun h => foldl_readVertex_yNeg vs initState h,
      fun h => foldl_readVertex_yPos vs initState rfl h,
      fun h => foldl_readVertex_zNeg vs initState h,
      fun h => foldl_readVertex_zPos vs initState rfl h⟩

/-- Witness for C5 at concrete vertex lists on one side of each axis. -/
theorem c5_extent_updates_witness :
    ((([⟨1, -2, 3⟩, ⟨2, -1, 0⟩] : List Vec3).foldl readVertex initState).xNeg = 0)
    ∧ ((([⟨1, -2, 3⟩, ⟨2, -1, 0⟩] : List Vec3).foldl readVertex initState).yPos = 0)
    ∧ ((([⟨1, -2, 3⟩, ⟨2, -1, 0⟩] : List Vec3).foldl readVertex initState).zNeg = 0)
    ∧ ((([⟨-1, 2, -3⟩, ⟨-2, 1, 0⟩] : List Vec3).foldl readVertex initState).xPos = 0)
    ∧ ((([⟨-1, 2, -3⟩, ⟨-2, 1, 0⟩] : List Vec3).foldl readVertex initState).yNeg = 0)
    ∧ ((([⟨-1, 2, -3⟩, ⟨-2, 1, 0⟩] : List Vec3).foldl readVertex initState).zPos = 0) :=
  ⟨(c5_extent_updates.2.2 _).1 (by decide),
   (c5_extent_updates.2.2 _).2.2.2.1 (by decide),
   (c5_extent_updates.2.2 _).2.2.2.2.1 (by decide),
   (c5_extent_updates.2.2 _).2.1 (by decide),
   (c5_extent_updates.2.2 _).2.2.1 (by decide),
   (c5_extent_updates.2.2 _).2.2.2.2.2 (by decide)⟩

theorem initState_extentsSigned : extentsSigned initState := by
  refine ⟨?_, ?_, ?_, ?_, ?_, ?_⟩ <;> norm_num [initState]

theorem calculateDimensions_loop (dec : List Nat → Vec3) (data : List Nat) (s0 : STLState)
    (hlen : 84 ≤ data.length) :
    calculateDimensions dec data s0 =
      (match readTriangles dec data (decodeI32 (byteSlice data 80 4)).toNat 84
          { s0 with numberOfTriangles := decodeI32 (byteSlice data 80 4) } with
       | (.exn s2, _) => .exn s2
       | (.ok s2, _) =>
         .ok { s2 with width := s2.xPos - s2.xNeg, height := s2.yPos - s2.yNeg, depth := s2.zPos - s2.zNeg }) := by
  have hu : unpack data 80 4 = some (byteSlice data 80 4) := by
    unfold unpack
    rw [if_pos (by omega)]
  unfold calculateDimensions
  rw [hu]

theorem calculateDimensions_short (dec : List Nat → Vec3) (data : List Nat) (s0 : STLState)
    (hlen : data.length < 84) : calculateDimensions dec data s0 = .exn s0 := by
  have hu : unpack data 80 4 = none := by
    unfold unpack
    rw [if_neg (by omega)]
  unfold calculateDimensions
  rw [hu]

/-- C6: when the decode pass completes, `width = xPos - xNeg`,
`height = yPos - yNeg` and `depth = zPos - zNeg` hold exactly, and each
of width, height, depth is `≥ 0`, because the positive-side extents never
go below 0 and the negative-side extents never go above 0. -/
theorem c6_derived_dimensions :
    ∀ (dec : List Nat → Vec3) (data : List Nat) (s : STLState),
      calculateDimensions dec data initState = .ok s →
      s.width = s.xPos - s.xNeg
      ∧ s.height = s.yPos - s.yNeg
      ∧ s.depth = s.zPos - s.zNeg
      ∧ 0 ≤ s.width ∧ 0 ≤ s.height ∧ 0 ≤ s.depth := by
  intro dec data s h
  by_cases hlen : 84 ≤ data.length
  · rw [calculateDimensions_loop dec data initState hlen] at h
    cases hl : readTriangles dec data (decodeI32 (byteSlice data 80 4)).toNat 84
        { initState with numberOfTriangles := decodeI32 (byteSlice data 80 4) } with
    | mk r p =>
      rw [hl] at h
      cases r with
      | exn s2 => simp at h
      | ok s2 =>
        have hinv := readTriangles_extentsSigned dec data
          (decodeI32 (byteSlice data 80 4)).toNat 84
          { initState with numberOfTriangles := decodeI32 (byteSlice data 80 4) }
          (by refine ⟨?_, ?_, ?_, ?_, ?_, ?_⟩ <;> norm_num [initState])
        rw [hl] at hinv
        simp only [PassResult.state] at hinv
        obtain ⟨i1, i2, i3, i4, i5, i6⟩ := hinv
        simp only [] at h
        rw [PassResult.ok.injEq] at h
        rw [← h]
        refine ⟨rfl, rfl, rfl, ?_, ?_, ?_⟩ <;> simp <;> linarith
  · rw [calculateDimensions_short dec data initState (by omega)] at h
    simp at h

/-- Witness for C6 on the valid empty 84-byte file. -/
theorem c6_derived_dimensions_witness :
    ((calculateDimensions dec0 dataCount0 initState).state.width
      = (calculateDimensions dec0 dataCount0 initState).state.xPos
        - (calculateDimensions dec0 dataCount0 initState).state.xNeg)
    ∧ 0 ≤ (calculateDimensions dec0 dataCount0 initState).state.width
    ∧ 0 ≤ (calculateDimensions dec0 dataCount0 initState).state.height
    ∧ 0 ≤ (calculateDimensions dec0 dataCount0 initState).state.depth := by
  have h := c6_derived_dimensions dec0 dataCount0
    ((calculateDimensions dec0 dataCount0 initState).state) (by with_unfolding_all decide)
  exact ⟨h.1, h.2.2.2.1, h.2.2.2.2.1, h.2.2.2.2.2⟩

/-- C3 (amended): for every input on which the decode pass completes AND
whose declared triangle count is nonnegative,
`len(vertices) = 3 * triangleCount` and
`len(normals) = len(triangles) = len(byteCounts) = triangleCount`.  The
restriction to nonnegative counts is forced by the counterexample: a
negative declared count completes the pass with empty sequences, and
`0 ≠ 3 * triangleCount` then. -/
theorem c3_sequence_lengths :
    ∀ (dec : List Nat → Vec3) (data : List Nat) (s : STLState),
      calculateDimensions dec data initState = .ok s →
      0 ≤ s.numberOfTriangles →
      (s.vertices.length : Int) = 3 * s.numberOfTriangles
      ∧ (s.normals.length : Int) = s.numberOfTriangles
      ∧ (s.triangles.length : Int) = s.numberOfTriangles
      ∧ (s.bytecount.length : Int) = s.numberOfTriangles := by
  intro dec data s h hn
  by_cases hlen : 84 ≤ data.length
  · rw [calculateDimensions_loop dec data initState hlen] at h
    cases hl : readTriangles dec data (decodeI32 (byteSlice data 80 4)).toNat 84
        { initState with numberOfTriangles := decodeI32 (byteSlice data 80 4) } with
    | mk r p =>
      rw [hl] at h
      cases r with
      | exn s2 => simp at h
      | ok s2 =>
        obtain ⟨b1, b2, b3, b4, b5, b6, b7⟩ := readTriangles_ok_fields dec data
          (decodeI32 (byteSlice data 80 4)).toNat 84
          { initState with numberOfTriangles := decodeI32 (byteSlice data 80 4) } s2 p hl
        simp only [] at h
        rw [PassResult.ok.injEq] at h
        rw [← h] at hn ⊢
        dsimp only at hn ⊢
        simp only [initState, List.length_nil, Nat.zero_add] at b1 b2 b3 b4 b5
        rw [b5] at hn
        rw [b1, b2, b3, b4, b5]
        push_cast
        omega
  · rw [calculateDimensions_short dec data initState (by omega)] at h
    simp at h

/-- Counterexample to C3 as stated: on an 84-byte file whose count field
decodes to `-1` the decode pass completes (no exception), yet
`len(vertices) = 0 ≠ 3 * (-1) = 3 * triangleCount`. -/
theorem c3_counterexample :
    ((calculateDimensions dec0 dataNegCount initState).isExn = false)
    ∧ ¬ (((calculateDimensions dec0 dataNegCount initState).state.vertices.length : Int)
        = 3 * (calculateDimensions dec0 dataNegCount initState).state.numberOfTriangles) := by
  decide

set_option maxRecDepth 4000 in
/-- Witness for C3 (amended) on a 134-byte one-triangle file. -/
theorem c3_sequence_lengths_witness :
    (((calculateDimensions dec0 dataOneTriangle initState).state.vertices.length : Int)
      = 3 * (calculateDimensions dec0 dataOneTriangle initState).state.numberOfTriangles)
    ∧ (((calculateDimensions dec0 dataOneTriangle initState).state.normals.length : Int)
      = (calculateDimensions dec0 dataOneTriangle initState).state.numberOfTriangles)
    ∧ (((calculateDimensions dec0 dataOneTriangle initState).state.triangles.length : Int)
      = (calculateDimensions dec0 dataOneTriangle initState).state.numberOfTriangles)
    ∧ (((calculateDimensions dec0 dataOneTriangle initState).state.bytecount.length : Int)
      = (calculateDimensions dec0 dataOneTriangle initState).state.numberOfTriangles) :=
  c3_sequence_lengths dec0 dataOneTriangle
    ((calculateDimensions dec0 dataOneTriangle initState).state)
    (by with_unfolding_all decide) (by decide)

/-- C2 (amended): a read past the end of the input during the decode
pass raises an exception that unwinds to the caller (the failed flag
stays `false` and the error code stays at its default 1; the source has
no TruncatedData error kind), the pass aborts, and the accumulated
sequences hold exactly the triangles fully read before truncation
(`(len - 84) / 50` of them, with three times as many vertices). -/
theorem c2_truncation_is_exception :
    ∀ (dec : List Nat → Vec3) (data : List Nat),
      84 ≤ data.length →
      0 ≤ decodeI32 (byteSlice data 80 4) →
      data.length < 84 + 50 * (decodeI32 (byteSlice data 80 4)).toNat →
      ((calculateDimensions dec data initState).isExn = true)
      ∧ ((calculateDimensions dec data initState).state.failed = false)
      ∧ ((calculateDimensions dec data initState).state.errorCode = 1)
      ∧ ((calculateDimensions dec data initState).state.triangles.length
          = (data.length - 84) / 50)
      ∧ ((calculateDimensions dec data initState).state.normals.length
          = (data.length - 84) / 50)
      ∧ ((calculateDimensions dec data initState).state.bytecount.length
          = (data.length - 84) / 50)
      ∧ ((calculateDimensions dec data initState).state.vertices.length
          = 3 * ((data.length - 84) / 50)) := by
  intro dec data hlen hn htr
  rw [calculateDimensions_loop dec data initState hlen]
  obtain ⟨t1, t2, t3, t4, t5, t6, t7, t8⟩ := readTriangles_trunc dec data
    (decodeI32 (byteSlice data 80 4)).toNat 84
    { initState with numberOfTriangles := decodeI32 (byteSlice data 80 4) }
    (by omega) (by omega)
  cases hl : readTriangles dec data (decodeI32 (byteSlice data 80 4)).toNat 84
      { initState with numberOfTriangles := decodeI32 (byteSlice data 80 4) } with
  | mk r p =>
    rw [hl] at t1 t2 t3 t4 t5 t6 t7
    cases r with
    | ok s2 => simp [PassResult.isExn] at t1
    | exn s2 =>
      simp only [PassResult.isExn, PassResult.state] at t1 t2 t3 t4 t5 t6 t7
      simp only [initState, List.length_nil, Nat.zero_add] at t2 t3 t4 t5 t6 t7
      simp only [PassResult.isExn, PassResult.state]
      exact ⟨trivial, t2, t3, t6, t4, t7, t5⟩

/-- Counterexample to C2 as stated: on a truncated file (declared count
1, no triangle bytes) the decode pass ends in an uncaught exception
rather than a captured failed state: the failed flag is still `false`
and the error code still holds its default value 1 (there is no
TruncatedData error kind in the source at all). -/
theorem c2_counterexample :
    ((calculateDimensions dec0 dataTrunc initState).isExn = true)
    ∧ ((calculateDimensions dec0 dataTrunc initState).state.failed = false)
    ∧ ((calculateDimensions dec0 dataTrunc initState).state.errorCode = 1) := by
  decide

/-- Witness for C2 (amended) on the truncated 84-byte count-1 file. -/
theorem c2_truncation_is_exception_witness :
    ((calculateDimensions dec0 dataTrunc initState).isExn = true)
    ∧ ((calculateDimensions dec0 dataTrunc initState).state.triangles.length = 0)
    ∧ ((calculateDimensions dec0 dataTrunc initState).state.vertices.length = 0) := by
  have h := c2_truncation_is_exception dec0 dataTrunc (by decide) (by decide) (by decide)
  refine ⟨h.1, ?_, ?_⟩
  · rw [h.2.2.2.1]
    decide
  · rw [h.2.2.2.2.2.2]
    decide

/-- C10: for every input whose 4-byte declared count decodes as a
negative signed integer, the decode pass processes zero triangles and
signals no failure: the reader reports the negative value as
`triangleCount`, all sequences stay empty, volume, width, height and
depth are 0, the failed flag stays `false`, and no exception is
raised. -/
theorem c10_negative_count_silent :
    ∀ (dec : List Nat → Vec3) (data : List Nat),
      84 ≤ data.length →
      decodeI32 (byteSlice data 80 4) < 0 →
      calculateDimensions dec data initState
        = .ok { initState with numberOfTriangles := decodeI32 (byteSlice data 80 4) }
      ∧ ((calculateDimensions dec data initState).state.numberOfTriangles < 0)
      ∧ ((calculateDimensions dec data initState).state.failed = false)
      ∧ ((calculateDimensions dec data initState).state.vertices = [])
      ∧ ((calculateDimensions dec data initState).state.normals = [])
      ∧ ((calculateDimensions dec data initState).state.triangles = [])
      ∧ ((calculateDimensions dec data initState).state.bytecount = [])
      ∧ ((calculateDimensions dec data initState).state.volume = 0)
      ∧ ((calculateDimensions dec data initState).state.width = 0)
      ∧ ((calculateDimensions dec data initState).state.height = 0)
      ∧ ((calculateDimensions dec data initState).state.depth = 0)
      ∧ ((calculateDimensions dec data initState).isExn = false) := by
  intro dec data hlen hneg
  have h0 : (decodeI32 (byteSlice data 80 4)).toNat = 0 := by omega
  have hmain : calculateDimensions dec data initState
      = .ok { initState with numberOfTriangles := decodeI32 (byteSlice data 80 4) } := by
    rw [calculateDimensions_loop dec data initState hlen, h0]
    simp only [readTriangles]
    simp [initState]
  refine ⟨hmain, ?_, ?_, ?_, ?_, ?_, ?_, ?_, ?_, ?_, ?_, ?_⟩ <;>
    rw [hmain] <;> simp [PassResult.state, PassResult.isExn, initState, hneg]

/-- Witness for C10 on the 84-byte file with count bytes FF FF FF FF. -/
theorem c10_negative_count_silent_witness :
    ((calculateDimensions dec0 dataNegCount initState).state.numberOfTriangles < 0)
    ∧ ((calculateDimensions dec0 dataNegCount initState).state.failed = false)
    ∧ ((calculateDimensions dec0 dataNegCount initState).state.vertices = [])
    ∧ ((calculateDimensions dec0 dataNegCount initState).state.volume = 0)
    ∧ ((calculateDimensions dec0 dataNegCount initState).isExn = false) := by
  have h := c10_negative_count_silent dec0 dataNegCount (by decide) (by decide)
  exact ⟨h.2.1, h.2.2.1, h.2.2.2.1, h.2.2.2.2.2.2.2.1, h.2.2.2.2.2.2.2.2.2.2.2⟩

/-- C8: a filename without a case-insensitive `.stl` suffix makes the
constructor return a failed state with error code 1 (InvalidExtension)
and all accumulated results at their initial values (no decode pass); a
`.stl` filename whose resource cannot be opened yields the failed state
with error code 2 (OpenFailed) instead. -/
theorem c8_error_codes :
    ∀ (dec : List Nat → Vec3) (path : String) (openResult : Option (List Nat)),
      (path.toLower.endsWith ".stl" = false →
        stlInit dec path openResult
          = .ok { initState with failed := true, errorCode := invalidExtensionCode })
      ∧ (path.toLower.endsWith ".stl" = true → openResult = none →
        stlInit dec path openResult
          = .ok { initState with failed := true, errorCode := openFailedCode }) := by
  intro dec path o
  constructor
  · intro h
    simp [stlInit, h, invalidExtensionCode]
  · intro h ho
    subst ho
    simp [stlInit, h, openFailedCode]

/-- Witness for C8 on `"model.txt"` and an unopenable `"MODEL.STL"`. -/
theorem c8_error_codes_witness :
    (stlInit dec0 "model.txt" (some dataCount0)
      = .ok { initState with failed := true, errorCode := invalidExtensionCode })
    ∧ (stlInit dec0 "MODEL.STL" none
      = .ok { initState with failed := true, errorCode := openFailedCode }) :=
  ⟨(c8_error_codes dec0 "model.txt" (some dataCount0)).1 (by with_unfolding_all decide),
   (c8_error_codes dec0 "MODEL.STL" none).2 (by with_unfolding_all decide) rfl⟩

set_option maxRecDepth 8000 in
/-- C9 (the code violates the claim): the list-valued class attributes
are genuinely shared, not shared only in appearance.  Constructing a
second reader on a one-triangle file after a first reader has decoded a
one-triangle file leaves the second reader's sequences holding BOTH
readers' data (two normals, two triangles, six vertices for a file whose
declared count is 1), because `.append` mutates the single class-level
list objects. -/
theorem c9_shared_class_lists :
    ((calculateDimensions dec0 dataOneTriangle initState).state.normals.length = 1)
    ∧ ((calculateDimensions dec0 dataOneTriangle initState).state.triangles.length = 1)
    ∧ ((calculateDimensions dec0 dataOneTriangle initState).state.vertices.length = 3)
    ∧ ((calculateDimensions dec0 dataOneTriangle
        (sharedClassState
          (calculateDimensions dec0 dataOneTriangle initState).state)).state.normals.length = 2)
    ∧ ((calculateDimensions dec0 dataOneTriangle
        (sharedClassState
          (calculateDimensions dec0 dataOneTriangle initState).state)).state.triangles.length = 2)
    ∧ ((calculateDimensions dec0 dataOneTriangle
        (sharedClassState
          (calculateDimensions dec0 dataOneTriangle initState).state)).state.vertices.length = 6)
    ∧ ((calculateDimensions dec0 dataOneTriangle
        (sharedClassState
          (calculateDimensions dec0 dataOneTriangle initState).state)).state.numberOfTriangles = 1)
    ∧ ((calculateDimensions dec0 dataOneTriangle
        (sharedClassState
          (calculateDimensions dec0 dataOneTriangle initState).state)).isExn = false) := by
  decide

/-- Counterexample to C7 as stated: the code tests `centroid == (0,0,0)`
on every vertex, not "still at its initial zero vector".  After vertices
`(1,0,0)` and `(-1,0,0)` the averaging returns the centroid to the zero
vector, so the code SETS the centroid to the next vertex `(4,0,0)`,
while the claim's wording (centroid no longer at its initial value)
requires averaging, giving `(2,0,0)`. -/
theorem c7_counterexample :
    ((([⟨1, 0, 0⟩, ⟨-1, 0, 0⟩, ⟨4, 0, 0⟩] : List Vec3).foldl readVertex initState).centroid
      = ⟨4, 0, 0⟩)
    ∧ (specCentroid [⟨1, 0, 0⟩, ⟨-1, 0, 0⟩, ⟨4, 0, 0⟩] = ⟨2, 0, 0⟩)
    ∧ ((([⟨1, 0, 0⟩, ⟨-1, 0, 0⟩, ⟨4, 0, 0⟩] : List Vec3).foldl readVertex initState).centroid
      ≠ specCentroid [⟨1, 0, 0⟩, ⟨-1, 0, 0⟩, ⟨4, 0, 0⟩]) := by
  with_unfolding_all decide

/-- C7 (amended): for every vertex processed, if the running centroid
currently EQUALS the zero vector (initially, or again when an averaging
step lands on zero) the centroid is set to that vertex; otherwise it is
replaced by the elementwise average `(c + v) / 2`.  The result is this
exponentially weighted recurrence (for three vertices with no zero
revisits: `v1/4 + v2/4 + v3/2`), not the arithmetic mean of all
vertices. -/
theorem c7_centroid_recurrence :
    (∀ c v : Vec3, calculateCentroid c v
      = if c = vzero then v
        else ⟨(c.x + v.x) / 2, (c.y + v.y) / 2, (c.z + v.z) / 2⟩)
    ∧ (∀ (s : STLState) (v : Vec3), (readVertex s v).centroid = calculateCentroid s.centroid v)
    ∧ (∀ v1 v2 v3 : Vec3, v1 ≠ vzero → calculateCentroid v1 v2 ≠ vzero →
        runCentroid [v1, v2, v3]
          = ⟨v1.x / 4 + v2.x / 4 + v3.x / 2, v1.y / 4 + v2.y / 4 + v3.y / 2,
             v1.z / 4 + v2.z / 4 + v3.z / 2⟩)
    ∧ (runCentroid [⟨1, 0, 0⟩, ⟨0, 0, 2⟩, ⟨2, 0, 1⟩]
        ≠ arithMean [⟨1, 0, 0⟩, ⟨0, 0, 2⟩, ⟨2, 0, 1⟩]) := by
  refine ⟨fun c v => rfl, readVertex_centroid, ?_, by with_unfolding_all decide⟩
  intro v1 v2 v3 h1 h2
  unfold runCentroid
  simp only [List.foldl_cons, List.foldl_nil]
  have e1 : calculateCentroid vzero v1 = v1 := by simp [calculateCentroid]
  rw [e1]
  have e2 : calculateCentroid v1 v2
      = ⟨(v1.x + v2.x) / 2, (v1.y + v2.y) / 2, (v1.z + v2.z) / 2⟩ := by
    rw [calculateCentroid, if_neg h1]
  rw [e2] at h2
  rw [e2, calculateCentroid, if_neg h2]
  rw [Vec3.mk.injEq]
  refine ⟨by ring, by ring, by ring⟩

/-- Witness for C7 (amended) on three concrete vertices. -/
theorem c7_centroid_recurrence_witness :
    runCentroid [⟨1, 0, 0⟩, ⟨0, 0, 2⟩, ⟨2, 0, 1⟩] = ⟨5/4, 0, 1⟩ := by
  have h := c7_centroid_recurrence.2.2.1 ⟨1, 0, 0⟩ ⟨0, 0, 2⟩ ⟨2, 0, 1⟩
    (by with_unfolding_all decide) (by with_unfolding_all decide)
  rw [h]
  rw [Vec3.mk.injEq]
  norm_num
